import Mathlib

/-!
Verification of the multi-network faucet component
(src/app/components/MCF.tsx).

The component owns a single flat state object updated by shallow merges.
We embed that state as a record and each handler as a function on it.
Asynchronous outcomes (the Solana airdrop / simulated call, the balance
read) are passed in as `Except` parameters: `.ok` carries the values the
environment produced, `.error` stands for the call throwing.  The
`setTimeout` status-clear timers are returned alongside the new state as
a list of scheduled delays (every timer in the source clears the status
field); `fireStatusClear` is what a fired timer does.  JS numbers are
embedded as `ℚ` (amounts, balances) and `ℤ` (the request counter,
lamports).
-/

inductive NetworkKey
  | solana
  | ethereum
  | polygon
  | bsc
deriving DecidableEq

structure NetworkInfo where
  name : String
  symbol : String
  decimals : Nat
  explorer : String
deriving DecidableEq

/-- The `networks` configuration table of MCF.tsx. -/
def networks : NetworkKey → NetworkInfo
  | .solana => ⟨"Solana", "SOL", 9, "https://explorer.solana.com"⟩
  | .ethereum => ⟨"Ethereum", "ETH", 18, "https://goerli.etherscan.io"⟩
  | .polygon => ⟨"Polygon", "MATIC", 18, "https://mumbai.polygonscan.com"⟩
  | .bsc => ⟨"Binance Smart Chain", "BNB", 18, "https://testnet.bscscan.com"⟩

/-- The `tokenOptions` table: selectable request amounts per network. -/
def tokenOptions : NetworkKey → List ℚ
  | .solana => [1/10, 1/2, 1]
  | .ethereum => [1/100, 1/20, 1/10]
  | .polygon => [1/10, 1/2, 1]
  | .bsc => [1/100, 1/20, 1/10]

/-- The string key under which a network is stored in a `Transaction`. -/
def NetworkKey.key : NetworkKey → String
  | .solana => "solana"
  | .ethereum => "ethereum"
  | .polygon => "polygon"
  | .bsc => "bsc"

structure Transaction where
  hash : String
  network : String
  amount : ℚ
  timestamp : String
deriving DecidableEq

inductive NetStatus
  | online
  | maintenance
  | offline
deriving DecidableEq

/-- The per-network pool balances record. -/
structure FaucetBalance where
  solana : ℚ
  ethereum : ℚ
  polygon : ℚ
  bsc : ℚ
deriving DecidableEq

def FaucetBalance.get (b : FaucetBalance) : NetworkKey → ℚ
  | .solana => b.solana
  | .ethereum => b.ethereum
  | .polygon => b.polygon
  | .bsc => b.bsc

def FaucetBalance.set (b : FaucetBalance) : NetworkKey → ℚ → FaucetBalance
  | .solana, v => { b with solana := v }
  | .ethereum, v => { b with ethereum := v }
  | .polygon, v => { b with polygon := v }
  | .bsc, v => { b with bsc := v }

structure NetworkStatusMap where
  solana : NetStatus
  ethereum : NetStatus
  polygon : NetStatus
  bsc : NetStatus
deriving DecidableEq

/-- The state object of the component (the `useState` record of MCF.tsx). -/
structure FaucetState where
  address : String
  status : String
  isLoading : Bool
  network : NetworkKey
  amount : ℚ
  balance : Option ℚ
  transactions : List Transaction
  isDarkMode : Bool
  isLoggedIn : Bool
  username : String
  password : String
  dailyRequestsLeft : ℤ
  captchaValue : String
  faucetBalance : FaucetBalance
  networkStatus : NetworkStatusMap
deriving DecidableEq

/-- The initial state passed to `useState`. -/
def initState : FaucetState where
  address := ""
  status := ""
  isLoading := false
  network := .solana
  amount := (tokenOptions .solana).headD 0
  balance := none
  transactions := []
  isDarkMode := false
  isLoggedIn := false
  username := ""
  password := ""
  dailyRequestsLeft := 5
  captchaValue := ""
  faucetBalance := ⟨1000, 10, 1000, 100⟩
  networkStatus := ⟨.online, .online, .online, .maintenance⟩

def LAMPORTS_PER_SOL : ℚ := 1000000000

/-- The `handleLogin` handler.  Returns the new state together with the
delays of any `setTimeout` status-clear timers it scheduled. -/
def handleLogin (s : FaucetState) : FaucetState × List ℕ :=
  if s.username = "demo" ∧ s.password = "password" then
    ({ s with isLoggedIn := true, dailyRequestsLeft := 5 }, [])
  else
    ({ s with status := "error" }, [3000])

/-- The `handleLogout` handler. -/
def handleLogout (s : FaucetState) : FaucetState :=
  { s with isLoggedIn := false, username := "", password := "" }

/-- The `checkBalance` operation.  `readResult` is the outcome of the
public-key parse plus `connection.getBalance` on the solana branch:
`.ok lamports` on success, `.error` if either throws.  Its own
try/catch means it never propagates an exception. -/
def checkBalance (s : FaucetState) (readResult : Except Unit ℤ) : FaucetState :=
  if s.network = .solana then
    match readResult with
    | .ok lamports => { s with balance := some ((lamports : ℚ) / LAMPORTS_PER_SOL) }
    | .error _ => { s with balance := none }
  else
    { s with balance := some (1 * 10) }

/-- The `handleSubmit` handler.  `callResult` is the outcome of the
network call in the try block (`.ok (txHash, timestamp)` with the hash
the airdrop or the simulated path produced and the display timestamp;
`.error` if address parsing or the airdrop threw); `readResult` feeds
the `checkBalance` refresh on the success path.  Returns the new state
and the delays of any scheduled status-clear timers. -/
def handleSubmit (s : FaucetState) (callResult : Except Unit (String × String))
    (readResult : Except Unit ℤ) : FaucetState × List ℕ :=
  if ¬ (s.isLoggedIn = true) ∨ s.dailyRequestsLeft ≤ 0 ∨ ¬ (s.captchaValue = "12345") then
    ({ s with status := "error" }, [3000])
  else
    let s1 := { s with isLoading := true, status := "" }
    match callResult with
    | .ok (txHash, ts) =>
      let newTransaction : Transaction :=
        { hash := txHash, network := s.network.key, amount := s.amount, timestamp := ts }
      let s2 := { s1 with
        status := "success"
        transactions := newTransaction :: s.transactions
        dailyRequestsLeft := s.dailyRequestsLeft - 1
        faucetBalance := s.faucetBalance.set s.network
          (s.faucetBalance.get s.network - s.amount) }
      let s3 := checkBalance s2 readResult
      ({ s3 with isLoading := false, captchaValue := "" }, [])
    | .error _ =>
      ({ s1 with status := "error", isLoading := false, captchaValue := "" }, [])

/-- The `onValueChange` of the network select. -/
def setNetwork (s : FaucetState) (k : NetworkKey) : FaucetState :=
  { s with network := k }

/-- The `useEffect` on `state.network`: reset the amount to the first
configured option of the current network. -/
def networkChangeEffect (s : FaucetState) : FaucetState :=
  { s with amount := (tokenOptions s.network).headD s.amount }

/-- Switching the active network: the select update followed by the
effect it triggers. -/
def selectNetwork (s : FaucetState) (k : NetworkKey) : FaucetState :=
  networkChangeEffect (setNetwork s k)

/-- A fired status-clear timer: set the status to the empty string. -/
def fireStatusClear (s : FaucetState) : FaucetState :=
  { s with status := "" }

def setUsername (s : FaucetState) (v : String) : FaucetState :=
  { s with username := v }

def setPassword (s : FaucetState) (v : String) : FaucetState :=
  { s with password := v }

def setAddress (s : FaucetState) (v : String) : FaucetState :=
  { s with address := v }

def setCaptcha (s : FaucetState) (v : String) : FaucetState :=
  { s with captchaValue := v }

def setAmount (s : FaucetState) (v : ℚ) : FaucetState :=
  { s with amount := v }

def setDarkMode (s : FaucetState) (b : Bool) : FaucetState :=
  { s with isDarkMode := b }

/-- States reachable from the initial state by any sequence of the
state-changing operations of the component: the handlers, the balance check,
switching the network (with its effect), every input field update, and a
fired status-clear timer. -/
inductive Reachable : FaucetState → Prop
  | init : Reachable initState
  | login {s} : Reachable s → Reachable (handleLogin s).1
  | logout {s} : Reachable s → Reachable (handleLogout s)
  | submit {s} (c : Except Unit (String × String)) (r : Except Unit ℤ) :
      Reachable s → Reachable (handleSubmit s c r).1
  | balanceCheck {s} (r : Except Unit ℤ) : Reachable s → Reachable (checkBalance s r)
  | selectNet {s} (k : NetworkKey) : Reachable s → Reachable (selectNetwork s k)
  | userField {s} (v : String) : Reachable s → Reachable (setUsername s v)
  | passField {s} (v : String) : Reachable s → Reachable (setPassword s v)
  | addrField {s} (v : String) : Reachable s → Reachable (setAddress s v)
  | captchaField {s} (v : String) : Reachable s → Reachable (setCaptcha s v)
  | amountField {s} (v : ℚ) : Reachable s → Reachable (setAmount s v)
  | darkToggle {s} (b : Bool) : Reachable s → Reachable (setDarkMode s b)
  | timerFired {s} : Reachable s → Reachable (fireStatusClear s)

theorem checkBalance_transactions (s : FaucetState) (r : Except Unit ℤ) :
    (checkBalance s r).transactions = s.transactions := by
  unfold checkBalance
  split
  · cases r <;> rfl
  · rfl

theorem checkBalance_dailyRequestsLeft (s : FaucetState) (r : Except Unit ℤ) :
    (checkBalance s r).dailyRequestsLeft = s.dailyRequestsLeft := by
  unfold checkBalance
  split
  · cases r <;> rfl
  · rfl

theorem checkBalance_faucetBalance (s : FaucetState) (r : Except Unit ℤ) :
    (checkBalance s r).faucetBalance = s.faucetBalance := by
  unfold checkBalance
  split
  · cases r <;> rfl
  · rfl

theorem checkBalance_status (s : FaucetState) (r : Except Unit ℤ) :
    (checkBalance s r).status = s.status := by
  unfold checkBalance
  split
  · cases r <;> rfl
  · rfl

theorem FaucetBalance.get_set (b : FaucetBalance) (k : NetworkKey) (v : ℚ) :
    (b.set k v).get k = v := by
  cases k <;> rfl

/-- C1: when the synchronous preconditions hold and the call succeeds,
the ledger grows by exactly one with the new record at the head,
`dailyRequestsLeft` drops by exactly 1, and the pool of the network drops by
exactly the requested amount (an exact equation: nothing clamps it at
zero). -/
theorem submit_success_effects (s : FaucetState) (txHash ts : String) (r : Except Unit ℤ)
    (hLoggedIn : s.isLoggedIn = true) (hQuota : 0 < s.dailyRequestsLeft)
    (hCaptcha : s.captchaValue = "12345") :
    ((handleSubmit s (.ok (txHash, ts)) r).1.transactions.length
        = s.transactions.length + 1) ∧
    ((handleSubmit s (.ok (txHash, ts)) r).1.transactions.head?
        = some { hash := txHash, network := s.network.key, amount := s.amount,
                 timestamp := ts }) ∧
    ((handleSubmit s (.ok (txHash, ts)) r).1.dailyRequestsLeft
        = s.dailyRequestsLeft - 1) ∧
    ((handleSubmit s (.ok (txHash, ts)) r).1.faucetBalance.get s.network
        = s.faucetBalance.get s.network - s.amount) := by
  have hg : ¬ (¬ (s.isLoggedIn = true) ∨ s.dailyRequestsLeft ≤ 0 ∨
      ¬ (s.captchaValue = "12345")) := by
    push_neg
    exact ⟨hLoggedIn, hQuota, hCaptcha⟩
  unfold handleSubmit
  rw [if_neg hg]
  refine ⟨?_, ?_, ?_, ?_⟩ <;>
    simp [checkBalance_transactions, checkBalance_dailyRequestsLeft,
      checkBalance_faucetBalance, FaucetBalance.get_set]

/-- Witness for C1 at a concrete logged-in state. -/
theorem submit_success_effects_witness :
    let s : FaucetState := { initState with isLoggedIn := true, captchaValue := "12345" }
    ((handleSubmit s (.ok ("abc", "now")) (.error ())).1.transactions.length
        = s.transactions.length + 1) ∧
    ((handleSubmit s (.ok ("abc", "now")) (.error ())).1.transactions.head?
        = some { hash := "abc", network := s.network.key, amount := s.amount,
                 timestamp := "now" }) ∧
    ((handleSubmit s (.ok ("abc", "now")) (.error ())).1.dailyRequestsLeft
        = s.dailyRequestsLeft - 1) ∧
    ((handleSubmit s (.ok ("abc", "now")) (.error ())).1.faucetBalance.get s.network
        = s.faucetBalance.get s.network - s.amount) :=
  submit_success_effects _ "abc" "now" (.error ()) rfl (by decide) rfl

/-- C2: when the session is not logged in, the quota is exhausted, or
the captcha differs from "12345", `handleSubmit` sets the generic error
status and leaves the ledger, the pools and the quota unchanged; the
result does not depend on the asynchronous outcomes at all (no
asynchronous work is started). -/
theorem submit_precond_failure (s : FaucetState) (c : Except Unit (String × String))
    (r : Except Unit ℤ)
    (h : ¬ (s.isLoggedIn = true) ∨ s.dailyRequestsLeft ≤ 0 ∨ ¬ (s.captchaValue = "12345")) :
    ((handleSubmit s c r).1.status = "error") ∧
    ((handleSubmit s c r).1.transactions = s.transactions) ∧
    ((handleSubmit s c r).1.faucetBalance = s.faucetBalance) ∧
    ((handleSubmit s c r).1.dailyRequestsLeft = s.dailyRequestsLeft) ∧
    (∀ c' : Except Unit (String × String), ∀ r' : Except Unit ℤ,
      handleSubmit s c r = handleSubmit s c' r') := by
  unfold handleSubmit
  rw [if_pos h]
  refine ⟨rfl, rfl, rfl, rfl, fun c' r' => ?_⟩
  rw [if_pos h]

/-- Witness for C2: quota exhausted at a concrete state. -/
theorem submit_precond_failure_witness :
    let s : FaucetState := { initState with
      isLoggedIn := true
      captchaValue := "12345"
      dailyRequestsLeft := 0 }
    ((handleSubmit s (.ok ("abc", "now")) (.ok 7)).1.status = "error") ∧
    ((handleSubmit s (.ok ("abc", "now")) (.ok 7)).1.transactions = s.transactions) ∧
    ((handleSubmit s (.ok ("abc", "now")) (.ok 7)).1.faucetBalance = s.faucetBalance) ∧
    ((handleSubmit s (.ok ("abc", "now")) (.ok 7)).1.dailyRequestsLeft
        = s.dailyRequestsLeft) ∧
    (∀ c' : Except Unit (String × String), ∀ r' : Except Unit ℤ,
      handleSubmit s (.ok ("abc", "now")) (.ok 7) = handleSubmit s c' r') :=
  submit_precond_failure _ (.ok ("abc", "now")) (.ok 7) (Or.inr (Or.inl (by decide)))

/-- C3: `handleLogin` takes the success branch exactly when the username
is "demo" and the password is "password"; on success it only sets the
logged-in flag and resets the quota to 5 (no timer); on failure the only
change is the transient error status, with its 3000-unit clear timer. -/
theorem handleLogin_spec (s : FaucetState) :
    ((s.username = "demo" ∧ s.password = "password") →
      (handleLogin s).1 = { s with isLoggedIn := true, dailyRequestsLeft := 5 } ∧
      (handleLogin s).2 = []) ∧
    (¬ (s.username = "demo" ∧ s.password = "password") →
      (handleLogin s).1 = { s with status := "error" } ∧
      (handleLogin s).2 = [3000]) := by
  constructor
  · intro h
    unfold handleLogin
    rw [if_pos h]
    exact ⟨rfl, rfl⟩
  · intro h
    unfold handleLogin
    rw [if_neg h]
    exact ⟨rfl, rfl⟩

/-- Witness for C3 at the matching credentials. -/
theorem handleLogin_spec_witness :
    let s : FaucetState := { initState with
      username := "demo"
      password := "password"
      dailyRequestsLeft := 0 }
    (handleLogin s).1 = { s with isLoggedIn := true, dailyRequestsLeft := 5 } ∧
    (handleLogin s).2 = [] :=
  (handleLogin_spec _).1 ⟨rfl, rfl⟩

/-- C4: when the preconditions hold but the call throws, `handleSubmit`
sets the generic error status (the error value itself is discarded),
leaves the quota, the ledger and the pools unchanged, and still clears
the loading flag. -/
theorem submit_failure_effects (s : FaucetState) (r : Except Unit ℤ)
    (hLoggedIn : s.isLoggedIn = true) (hQuota : 0 < s.dailyRequestsLeft)
    (hCaptcha : s.captchaValue = "12345") :
    ((handleSubmit s (.error ()) r).1.status = "error") ∧
    ((handleSubmit s (.error ()) r).1.dailyRequestsLeft = s.dailyRequestsLeft) ∧
    ((handleSubmit s (.error ()) r).1.transactions = s.transactions) ∧
    ((handleSubmit s (.error ()) r).1.faucetBalance = s.faucetBalance) ∧
    ((handleSubmit s (.error ()) r).1.isLoading = false) := by
  have hg : ¬ (¬ (s.isLoggedIn = true) ∨ s.dailyRequestsLeft ≤ 0 ∨
      ¬ (s.captchaValue = "12345")) := by
    push_neg
    exact ⟨hLoggedIn, hQuota, hCaptcha⟩
  unfold handleSubmit
  rw [if_neg hg]
  exact ⟨rfl, rfl, rfl, rfl, rfl⟩

/-- Witness for C4 at a concrete logged-in state. -/
theorem submit_failure_effects_witness :
    let s : FaucetState := { initState with isLoggedIn := true, captchaValue := "12345" }
    ((handleSubmit s (.error ()) (.ok 7)).1.status = "error") ∧
    ((handleSubmit s (.error ()) (.ok 7)).1.dailyRequestsLeft = s.dailyRequestsLeft) ∧
    ((handleSubmit s (.error ()) (.ok 7)).1.transactions = s.transactions) ∧
    ((handleSubmit s (.error ()) (.ok 7)).1.faucetBalance = s.faucetBalance) ∧
    ((handleSubmit s (.error ()) (.ok 7)).1.isLoading = false) :=
  submit_failure_effects _ (.ok 7) rfl (by decide) rfl

/-- C10: once the preconditions pass, `captchaValue` ends up cleared to
"" on the success path and the failure path alike (the `finally`
branch); when a precondition fails, `captchaValue` is untouched. -/
theorem submit_captcha_clearing (s : FaucetState) (c : Except Unit (String × String))
    (r : Except Unit ℤ) :
    ((s.isLoggedIn = true ∧ 0 < s.dailyRequestsLeft ∧ s.captchaValue = "12345") →
      (handleSubmit s c r).1.captchaValue = "") ∧
    ((¬ (s.isLoggedIn = true) ∨ s.dailyRequestsLeft ≤ 0 ∨ ¬ (s.captchaValue = "12345")) →
      (handleSubmit s c r).1.captchaValue = s.captchaValue) := by
  constructor
  · intro ⟨h1, h2, h3⟩
    have hg : ¬ (¬ (s.isLoggedIn = true) ∨ s.dailyRequestsLeft ≤ 0 ∨
        ¬ (s.captchaValue = "12345")) := by
      push_neg
      exact ⟨h1, h2, h3⟩
    unfold handleSubmit
    rw [if_neg hg]
    rcases c with _ | ⟨tx, ts⟩
    · rfl
    · rfl
  · intro h
    unfold handleSubmit
    rw [if_pos h]

/-- Witness for C10: the success path clears the captcha. -/
theorem submit_captcha_clearing_witness :
    let s : FaucetState := { initState with isLoggedIn := true, captchaValue := "12345" }
    (handleSubmit s (.ok ("abc", "now")) (.ok 7)).1.captchaValue = "" :=
  (submit_captcha_clearing _ (.ok ("abc", "now")) (.ok 7)).1 ⟨rfl, by decide, rfl⟩

theorem handleSubmit_quota_cases (s : FaucetState) (c : Except Unit (String × String))
    (r : Except Unit ℤ) :
    (handleSubmit s c r).1.dailyRequestsLeft = s.dailyRequestsLeft ∨
    (0 < s.dailyRequestsLeft ∧
      (handleSubmit s c r).1.dailyRequestsLeft = s.dailyRequestsLeft - 1) := by
  unfold handleSubmit
  split
  · exact Or.inl rfl
  · rename_i hg
    push_neg at hg
    rcases c with _ | ⟨tx, ts⟩
    · exact Or.inl rfl
    · refine Or.inr ⟨hg.2.1, ?_⟩
      simp [checkBalance_dailyRequestsLeft]

/-- C5: `dailyRequestsLeft` never becomes negative in any reachable
state: it starts at 5, login resets it to 5, and `handleSubmit` only
decrements it when the guard `dailyRequestsLeft > 0` passed. -/
theorem dailyRequestsLeft_nonneg (s : FaucetState) (h : Reachable s) :
    0 ≤ s.dailyRequestsLeft := by
  induction h with
  | init => decide
  | login hr ih =>
    unfold handleLogin
    split
    · show (0:ℤ) ≤ 5
      decide
    · exact ih
  | logout hr ih => exact ih
  | submit c r hr ih =>
    rcases handleSubmit_quota_cases _ c r with h1 | ⟨h2, h3⟩
    · rw [h1]; exact ih
    · rw [h3]; omega
  | balanceCheck r hr ih => rw [checkBalance_dailyRequestsLeft]; exact ih
  | selectNet k hr ih => exact ih
  | userField v hr ih => exact ih
  | passField v hr ih => exact ih
  | addrField v hr ih => exact ih
  | captchaField v hr ih => exact ih
  | amountField v hr ih => exact ih
  | darkToggle b hr ih => exact ih
  | timerFired hr ih => exact ih

/-- Witness for C5 at the initial state. -/
theorem dailyRequestsLeft_nonneg_witness :
    0 ≤ initState.dailyRequestsLeft :=
  dailyRequestsLeft_nonneg initState Reachable.init

/-- A logged-in state with the captcha filled in correctly. -/
def readyState : FaucetState :=
  { initState with isLoggedIn := true, captchaValue := "12345" }

/-- C6 counterexample: on the catch path (preconditions passed, call
threw) `handleSubmit` sets the error status but schedules no clear
timer, so this error status does not auto-clear after 3 time units. -/
theorem submit_catch_error_no_timer :
    (handleSubmit readyState (.error ()) (.ok 7)).1.status = "error" ∧
    (handleSubmit readyState (.error ()) (.ok 7)).2 = [] := ⟨rfl, rfl⟩

/-- C6 amended: the error statuses set by a failed login and by a failed
request precondition each schedule a 3000-unit clear timer, and a fired
timer clears the status unconditionally; the error status set on the
catch path (the call throwing during request execution) schedules no
timer and is not auto-cleared. -/
theorem error_status_timer_spec (s : FaucetState) (c : Except Unit (String × String))
    (r : Except Unit ℤ) :
    (¬ (s.username = "demo" ∧ s.password = "password") →
      (handleLogin s).1.status = "error" ∧ (handleLogin s).2 = [3000]) ∧
    ((¬ (s.isLoggedIn = true) ∨ s.dailyRequestsLeft ≤ 0 ∨ ¬ (s.captchaValue = "12345")) →
      (handleSubmit s c r).1.status = "error" ∧ (handleSubmit s c r).2 = [3000]) ∧
    ((s.isLoggedIn = true ∧ 0 < s.dailyRequestsLeft ∧ s.captchaValue = "12345") →
      (handleSubmit s (.error ()) r).1.status = "error" ∧
      (handleSubmit s (.error ()) r).2 = []) ∧
    (fireStatusClear s).status = "" := by
  refine ⟨fun h => ?_, fun h => ?_, fun h => ?_, rfl⟩
  · unfold handleLogin
    rw [if_neg h]
    exact ⟨rfl, rfl⟩
  · unfold handleSubmit
    rw [if_pos h]
    exact ⟨rfl, rfl⟩
  · have hg : ¬ (¬ (s.isLoggedIn = true) ∨ s.dailyRequestsLeft ≤ 0 ∨
        ¬ (s.captchaValue = "12345")) := by
      push_neg
      exact h
    unfold handleSubmit
    rw [if_neg hg]
    exact ⟨rfl, rfl⟩

/-- Witness for the amended C6: a failed login at the initial state. -/
theorem error_status_timer_spec_witness :
    (handleLogin initState).1.status = "error" ∧ (handleLogin initState).2 = [3000] :=
  (error_status_timer_spec initState (.error ()) (.ok 0)).1 (by decide)

/-- A logged-in state with three requests left. -/
def partSpent : FaucetState :=
  { initState with isLoggedIn := true, dailyRequestsLeft := 3 }

/-- C7 counterexample: logout does not clear `dailyRequestsLeft` — from
a state with 3 requests left it stays 3, not cleared. -/
theorem logout_keeps_quota :
    (handleLogout partSpent).dailyRequestsLeft = 3 ∧ (3 : ℤ) ≠ 0 := ⟨rfl, by decide⟩

/-- C7 amended: logout clears the logged-in flag and both credential
fields and leaves every other field — `dailyRequestsLeft`, the ledger
and the pools included — unchanged. -/
theorem handleLogout_spec (s : FaucetState) :
    (handleLogout s).isLoggedIn = false ∧
    (handleLogout s).username = "" ∧
    (handleLogout s).password = "" ∧
    (handleLogout s).dailyRequestsLeft = s.dailyRequestsLeft ∧
    (handleLogout s).transactions = s.transactions ∧
    (handleLogout s).faucetBalance = s.faucetBalance ∧
    (handleLogout s).status = s.status ∧
    (handleLogout s).balance = s.balance ∧
    (handleLogout s).network = s.network ∧
    (handleLogout s).amount = s.amount ∧
    (handleLogout s).address = s.address ∧
    (handleLogout s).captchaValue = s.captchaValue :=
  ⟨rfl, rfl, rfl, rfl, rfl, rfl, rfl, rfl, rfl, rfl, rfl, rfl⟩

/-- C8: switching to network `k` resets the selected amount to the
first configured option of `k`, and that first option is the least
element of the option list of `k`. -/
theorem selectNetwork_amount (s : FaucetState) (k : NetworkKey) :
    (selectNetwork s k).amount = (tokenOptions k).headD 0 ∧
    (tokenOptions k).headD 0 ∈ tokenOptions k ∧
    ∀ x ∈ tokenOptions k, (tokenOptions k).headD 0 ≤ x := by
  cases k <;> refine ⟨rfl, ?_, ?_⟩ <;> simp [tokenOptions] <;> norm_num

/-- Witness for C8: switching to ethereum selects 0.01, below 0.05. -/
theorem selectNetwork_amount_witness :
    (selectNetwork initState NetworkKey.ethereum).amount = 1/100 ∧
    ((1:ℚ)/100 ≤ 1/20) :=
  ⟨(selectNetwork_amount initState NetworkKey.ethereum).1,
   (selectNetwork_amount initState NetworkKey.ethereum).2.2 (1/20)
     (by simp [tokenOptions])⟩

/-- C9: on solana `checkBalance` converts the lamports read to display
units dividing by 10^9 = 10^decimals; a throwing read yields the
explicit unknown `none`, never `some 0`; on every other network the
balance is the fixed placeholder `1 * 10` independent of the read. -/
theorem checkBalance_spec (s : FaucetState) (lamports : ℤ) (r : Except Unit ℤ) :
    (s.network = .solana →
      (checkBalance s (.ok lamports)).balance
          = some ((lamports : ℚ) / 10 ^ (networks .solana).decimals) ∧
      (checkBalance s (.error ())).balance = none ∧
      (checkBalance s (.error ())).balance ≠ some 0) ∧
    (s.network ≠ .solana → (checkBalance s r).balance = some (1 * 10)) := by
  constructor
  · intro h
    refine ⟨?_, ?_, ?_⟩
    · unfold checkBalance
      rw [if_pos h]
      norm_num [LAMPORTS_PER_SOL, networks]
    · unfold checkBalance
      rw [if_pos h]
    · unfold checkBalance
      rw [if_pos h]
      simp
  · intro h
    unfold checkBalance
    rw [if_neg h]

/-- Witness for C9: a solana read of 5 lamports, a solana failure, and a
bsc placeholder. -/
theorem checkBalance_spec_witness :
    ((checkBalance initState (.ok 5)).balance
        = some ((5:ℚ) / 10 ^ (networks .solana).decimals)) ∧
    ((checkBalance initState (.error ())).balance = none) ∧
    ((checkBalance (setNetwork initState .bsc) (.error ())).balance = some (1 * 10)) :=
  ⟨((checkBalance_spec initState 5 (.ok 5)).1 rfl).1,
   ((checkBalance_spec initState 5 (.ok 5)).1 rfl).2.1,
   (checkBalance_spec (setNetwork initState .bsc) 5 (.error ())).2 (by decide)⟩
